import Mathlib

/-!
Shallow embedding of the `pizza-core` crate (`src/pizza-core/src/lib.rs`).

The Rust code computes over `f64`; here the same arithmetic is carried out
over exact numbers.  The timeline model and `effective_hours` use only
field operations, `max`/`min` and comparisons, so they are embedded over `ℚ`
(computable, decidable).  `estimate_yeast_percent_dry` uses `f64::powf`
(real exponentiation), so it and `compute_ingredients` are embedded over `ℝ`
with `Real.rpow`.
-/

namespace PizzaCore

/-- Yeast kind supported by the core (`enum YeastKind`). -/
inductive YeastKind where
  | Dry
  | Fresh
deriving DecidableEq

/-- Input for ingredient computation (`struct IngredientsInput`). -/
structure IngredientsInput where
  total_dough_g : ℝ
  hydration : ℝ
  salt_per_kg : ℝ
  yeast : YeastKind
  temp_c : ℝ
  w : ℕ
  effective_hours : ℝ

/-- Output ingredients in grams (`struct Ingredients`). -/
structure Ingredients where
  flour_g : ℝ
  water_g : ℝ
  salt_g : ℝ
  yeast_g : ℝ
  starter_total_g : ℝ

/-- `fn clamp<T: PartialOrd>(v, lo, hi)`: if v < lo then lo else if v > hi then hi else v. -/
def clamp {α : Type} [LinearOrder α] (v lo hi : α) : α :=
  if v < lo then lo else if v > hi then hi else v

/-- `fn estimate_yeast_percent_dry(temp_c, w, effective_hours)`:
`clamp(0.0035 * 2^((25-temp_c)/10) * (w/260)^0.2 * (12/effective_hours), 0.0005, 0.015)`. -/
noncomputable def estimate_yeast_percent_dry (temp_c : ℝ) (w : ℕ) (effective_hours : ℝ) : ℝ :=
  let base : ℝ := 0.0035
  let f_temp : ℝ := (2 : ℝ) ^ ((25 - temp_c) / 10)
  let f_w : ℝ := ((w : ℝ) / 260) ^ (0.2 : ℝ)
  let f_time : ℝ := 12 / effective_hours
  clamp (base * f_temp * f_w * f_time) 0.0005 0.015

/-- `fn effective_hours(total_hours, fridge_hours, fridge_factor)`:
fridge hours are floored at 0 and capped at `total_hours.max(0.0)`, the factor is
clamped to `[0.05, 0.5]`, and the result is `(total - fridge) + fridge * factor`. -/
def effective_hours (total_hours fridge_hours fridge_factor : ℚ) : ℚ :=
  let fh := min (max fridge_hours 0) (max total_hours 0)
  let rf := clamp fridge_factor 0.05 0.5
  (total_hours - fh) + fh * rf

/-- The working yeast percentage of flour used by `compute_ingredients`:
the dry estimate for `Dry`, and `dry_pct * 3.0` for `Fresh` (lines 81-85 of lib.rs). -/
noncomputable def yeast_pct (input : IngredientsInput) : ℝ :=
  let dry_pct := estimate_yeast_percent_dry input.temp_c input.w input.effective_hours
  match input.yeast with
  | YeastKind.Dry => dry_pct
  | YeastKind.Fresh => dry_pct * 3

/-- `fn compute_ingredients(input)`: back-solves
`flour = total_dough_g / (1 + hydration + salt_per_kg/1000 + yeast_pct)` and derives
water, salt and yeast as flour-relative products; `starter_total_g` is always 0. -/
noncomputable def compute_ingredients (input : IngredientsInput) : Ingredients :=
  let salt_pct := input.salt_per_kg / 1000
  let h := input.hydration
  let yp := yeast_pct input
  let flour := input.total_dough_g / (1 + h + salt_pct + yp)
  { flour_g := flour
    water_g := flour * h
    salt_g := flour * salt_pct
    yeast_g := flour * yp
    starter_total_g := 0 }

/-- Timeline in hours (`struct Timeline`). -/
structure Timeline where
  bulk_h : ℚ
  fridge_h : ℚ
  warmup_h : ℚ
  proof_h : ℚ
deriving DecidableEq

/-- `fn temp_adjust_ratio(temp_c, base, step, min, max)` from lib.rs: above 25°C the
base is decreased by `step` per °C and floored at `lo`; below 25°C it is increased
and capped at `hi`; at 25°C it is returned unchanged. -/
def temp_adjust_frac (temp_c base step lo hi : ℚ) : ℚ :=
  if temp_c > 25 then max (base - ((temp_c - 25) * step)) lo
  else if temp_c < 25 then min (base + ((25 - temp_c) * step)) hi
  else base

/-- `fn timeline_no_fridge(total_hours, temp_c)`: 55/45 bulk/proof split, shifting
`min(clamp((|temp-25|)*0.05, 0, 1), receiving_phase*0.2)` hours between the phases. -/
def timeline_no_fridge (total_hours temp_c : ℚ) : Timeline :=
  let bulk := total_hours * 0.55
  let prf := total_hours - bulk
  if temp_c > 25 then
    let delta := min (max ((temp_c - 25) * 0.05) 0) 1
    let adjust := min delta (bulk * 0.2)
    { bulk_h := bulk - adjust, fridge_h := 0, warmup_h := 0, proof_h := prf + adjust }
  else if temp_c < 25 then
    let delta := min (max ((25 - temp_c) * 0.05) 0) 1
    let adjust := min delta (prf * 0.2)
    { bulk_h := bulk + adjust, fridge_h := 0, warmup_h := 0, proof_h := prf - adjust }
  else
    { bulk_h := bulk, fridge_h := 0, warmup_h := 0, proof_h := prf }

/-- `fn timeline_with_fridge(total_hours, temp_c, fridge_hours, warmup_hours)`:
`remaining = (total - fridge - warmup).max(0)` is split by a temperature-adjusted
bulk share (base 0.35, step 0.01, clamped to [0.20, 0.60]); fridge and warmup
are floored at 0 in the output. -/
def timeline_with_fridge (total_hours temp_c fridge_hours warmup_hours : ℚ) : Timeline :=
  let remaining := max (total_hours - fridge_hours - warmup_hours) 0
  let bulk_frac := temp_adjust_frac temp_c 0.35 0.01 0.20 0.60
  let bulk := remaining * bulk_frac
  let prf := remaining - bulk
  { bulk_h := bulk
    fridge_h := max fridge_hours 0
    warmup_h := max warmup_hours 0
    proof_h := prf }

/-! ### Helper lemmas -/

theorem le_clamp {α : Type} [LinearOrder α] (v : α) {lo hi : α} (h : lo ≤ hi) :
    lo ≤ clamp v lo hi := by
  unfold clamp
  split_ifs with h1 h2
  · exact le_refl lo
  · exact h
  · exact le_of_not_lt h1

theorem clamp_le {α : Type} [LinearOrder α] (v : α) {lo hi : α} (h : lo ≤ hi) :
    clamp v lo hi ≤ hi := by
  unfold clamp
  split_ifs with h1 h2
  · exact h
  · exact le_refl hi
  · exact le_of_not_lt h2

theorem clamp_eq_self {α : Type} [LinearOrder α] {v lo hi : α} (h1 : lo ≤ v) (h2 : v ≤ hi) :
    clamp v lo hi = v := by
  unfold clamp
  rw [if_neg (not_lt.mpr h1), if_neg (not_lt.mpr h2)]

/-- The dry yeast estimate always lands in the clamp interval [0.0005, 0.015]. -/
theorem estimate_mem (temp_c : ℝ) (w : ℕ) (eh : ℝ) :
    0.0005 ≤ estimate_yeast_percent_dry temp_c w eh ∧
      estimate_yeast_percent_dry temp_c w eh ≤ 0.015 := by
  unfold estimate_yeast_percent_dry
  exact ⟨le_clamp _ (by norm_num), clamp_le _ (by norm_num)⟩

/-- At the calibration point 25°C and W = 260 both power factors are 1, so the
estimate reduces to `clamp (0.0035 * (12 / eh))`. -/
theorem estimate_at_25_260 (eh : ℝ) :
    estimate_yeast_percent_dry 25 260 eh = clamp (0.0035 * (12 / eh)) 0.0005 0.015 := by
  show clamp ((0.0035 : ℝ) * (2 : ℝ) ^ (((25 : ℝ) - 25) / 10) *
      (((260 : ℕ) : ℝ) / 260) ^ (0.2 : ℝ) * (12 / eh)) 0.0005 0.015 = _
  have h1 : ((25 : ℝ) - 25) / 10 = 0 := by norm_num
  have h2 : (((260 : ℕ) : ℝ) / 260) = 1 := by norm_num
  rw [h1, h2, Real.rpow_zero, Real.one_rpow]
  norm_num

/-- The working yeast percentage is at least 0.0005 for any input. -/
theorem yeast_pct_lb (input : IngredientsInput) : 0.0005 ≤ yeast_pct input := by
  unfold yeast_pct
  have h := estimate_mem input.temp_c input.w input.effective_hours
  cases input.yeast <;> simp only <;> nlinarith [h.1]

/-- The temperature-adjusted bulk share used by `timeline_with_fridge` stays in [0.20, 0.60]. -/
theorem temp_adjust_frac_mem (tc : ℚ) :
    0.20 ≤ temp_adjust_frac tc 0.35 0.01 0.20 0.60 ∧
      temp_adjust_frac tc 0.35 0.01 0.20 0.60 ≤ 0.60 := by
  unfold temp_adjust_frac
  split_ifs with h1 h2
  · exact ⟨le_max_right _ _, max_le (by nlinarith) (by norm_num)⟩
  · exact ⟨le_min (by nlinarith) (by norm_num), min_le_right _ _⟩
  · norm_num

/-! ### Claim theorems: effective_hours and timelines -/

/-- C5: `effective_hours(total, fridge, factor)` returns `(total − f) + f × r` where `f`
is `fridge_hours` clamped to [0, total_hours] and `r` is `fridge_factor` clamped to
[0.05, 0.5]; concretely `effective_hours 12 4 0.25 = 9` and `effective_hours 12 4 0.01 = 8.2`. -/
theorem effective_hours_formula (t f r : ℚ) (ht : 0 ≤ t) :
    effective_hours t f r =
      (t - min (max f 0) t) + min (max f 0) t * clamp r 0.05 0.5 ∧
    effective_hours 12 4 0.25 = 9 ∧ effective_hours 12 4 0.01 = 8.2 := by
  refine ⟨?_, by norm_num [effective_hours, clamp, min_def, max_def], by
    norm_num [effective_hours, clamp, min_def, max_def]⟩
  unfold effective_hours
  rw [max_eq_left ht]

/-- Witness for C5 at total = 12. -/
theorem effective_hours_formula_witness :
    (0 : ℚ) ≤ 12 ∧
    (effective_hours 12 4 0.25 =
        (12 - min (max 4 0) 12) + min (max (4 : ℚ) 0) 12 * clamp 0.25 0.05 0.5 ∧
      effective_hours 12 4 0.25 = 9 ∧ effective_hours 12 4 0.01 = 8.2) :=
  ⟨by norm_num, effective_hours_formula 12 4 0.25 (by norm_num)⟩

/-- C6: for total ≥ 0, fridge ∈ [0, total] and factor ∈ [0.05, 0.5], the result of
`effective_hours` lies in [total × factor, total] and is non-increasing in fridge hours. -/
theorem effective_hours_bounds_mono (t f r : ℚ) (ht : 0 ≤ t) (hf0 : 0 ≤ f) (hft : f ≤ t)
    (hr1 : 0.05 ≤ r) (hr2 : r ≤ 0.5) :
    t * r ≤ effective_hours t f r ∧ effective_hours t f r ≤ t ∧
      ∀ f₂, f ≤ f₂ → f₂ ≤ t → effective_hours t f₂ r ≤ effective_hours t f r := by
  have key : ∀ g : ℚ, 0 ≤ g → g ≤ t → effective_hours t g r = (t - g) + g * r := by
    intro g hg0 hgt
    unfold effective_hours
    rw [max_eq_left ht, max_eq_left hg0, min_eq_left hgt, clamp_eq_self hr1 hr2]
  rw [key f hf0 hft]
  refine ⟨?_, ?_, ?_⟩
  · nlinarith [mul_nonneg (sub_nonneg.mpr hft) (by linarith : (0 : ℚ) ≤ 1 - r)]
  · nlinarith [mul_nonneg hf0 (by linarith : (0 : ℚ) ≤ 1 - r)]
  · intro f₂ h12 h2t
    rw [key f₂ (le_trans hf0 h12) h2t]
    nlinarith [mul_nonneg (sub_nonneg.mpr h12) (by linarith : (0 : ℚ) ≤ 1 - r)]

/-- Witness for C6 at total = 12, fridge = 4, factor = 0.25, second fridge value 6. -/
theorem effective_hours_bounds_mono_witness :
    ((0 : ℚ) ≤ 12 ∧ (0 : ℚ) ≤ 4 ∧ (4 : ℚ) ≤ 12 ∧ (0.05 : ℚ) ≤ 0.25 ∧ (0.25 : ℚ) ≤ 0.5) ∧
    12 * (0.25 : ℚ) ≤ effective_hours 12 4 0.25 ∧ effective_hours 12 4 0.25 ≤ 12 ∧
    effective_hours 12 6 0.25 ≤ effective_hours 12 4 0.25 := by
  have h := effective_hours_bounds_mono 12 4 0.25 (by norm_num) (by norm_num) (by norm_num)
    (by norm_num) (by norm_num)
  exact ⟨⟨by norm_num, by norm_num, by norm_num, by norm_num, by norm_num⟩,
    h.1, h.2.1, h.2.2 6 (by norm_num) (by norm_num)⟩

/-- C2 counterexample: at total = 2, temp = 25, fridge = −1, warmup = 0 the hypothesis
fridge + warmup < total of the claim holds, yet the phases sum to 3, not 2, because the
negative fridge input is floored to 0 in the output but not in `remaining`. -/
theorem timeline_with_fridge_sum_cex :
    ((-1 : ℚ) + 0 < 2) ∧
    ¬((timeline_with_fridge 2 25 (-1) 0).bulk_h + (timeline_with_fridge 2 25 (-1) 0).fridge_h +
        (timeline_with_fridge 2 25 (-1) 0).warmup_h +
        (timeline_with_fridge 2 25 (-1) 0).proof_h = 2) :=
  ⟨by norm_num, by norm_num [timeline_with_fridge, temp_adjust_frac, min_def, max_def]⟩

/-- C2 (amended): for fridge_hours ≥ 0 and warmup_hours ≥ 0 with
fridge_hours + warmup_hours < total_hours, the four phases of `timeline_with_fridge`
sum exactly to total_hours. -/
theorem timeline_with_fridge_sum (t tc f w : ℚ) (hf : 0 ≤ f) (hw : 0 ≤ w)
    (hsum : f + w < t) :
    (timeline_with_fridge t tc f w).bulk_h + (timeline_with_fridge t tc f w).fridge_h +
      (timeline_with_fridge t tc f w).warmup_h + (timeline_with_fridge t tc f w).proof_h = t := by
  unfold timeline_with_fridge
  dsimp only
  rw [max_eq_left (by linarith : (0 : ℚ) ≤ t - f - w), max_eq_left hf, max_eq_left hw]
  ring

/-- Witness for C2 (amended) at (12, 25, 4, 3). -/
theorem timeline_with_fridge_sum_witness :
    ((0 : ℚ) ≤ 4 ∧ (0 : ℚ) ≤ 3 ∧ (4 : ℚ) + 3 < 12) ∧
    (timeline_with_fridge 12 25 4 3).bulk_h + (timeline_with_fridge 12 25 4 3).fridge_h +
      (timeline_with_fridge 12 25 4 3).warmup_h + (timeline_with_fridge 12 25 4 3).proof_h = 12 :=
  ⟨⟨by norm_num, by norm_num, by norm_num⟩,
    timeline_with_fridge_sum 12 25 4 3 (by norm_num) (by norm_num) (by norm_num)⟩

/-- C8: for total > 0 and any temp, `timeline_no_fridge` has bulk + proof = total and
fridge = warmup = 0; at exactly 25°C, bulk = 0.55 × total and proof = 0.45 × total. -/
theorem timeline_no_fridge_spec (t tc : ℚ) (ht : 0 < t) :
    (timeline_no_fridge t tc).bulk_h + (timeline_no_fridge t tc).proof_h = t ∧
    (timeline_no_fridge t tc).fridge_h = 0 ∧ (timeline_no_fridge t tc).warmup_h = 0 ∧
    (timeline_no_fridge t 25).bulk_h = 0.55 * t ∧
    (timeline_no_fridge t 25).proof_h = 0.45 * t := by
  have h25 : timeline_no_fridge t 25 =
      { bulk_h := t * 0.55, fridge_h := 0, warmup_h := 0, proof_h := t - t * 0.55 } := by
    unfold timeline_no_fridge
    norm_num
  refine ⟨?_, ?_, ?_, ?_, ?_⟩
  · unfold timeline_no_fridge
    dsimp only
    split_ifs <;> dsimp only <;> ring
  · unfold timeline_no_fridge
    dsimp only
    split_ifs <;> rfl
  · unfold timeline_no_fridge
    dsimp only
    split_ifs <;> rfl
  · rw [h25]; ring
  · rw [h25]; ring

/-- Witness for C8 at total = 11, temp = 25. -/
theorem timeline_no_fridge_spec_witness :
    ((0 : ℚ) < 11) ∧
    ((timeline_no_fridge 11 25).bulk_h + (timeline_no_fridge 11 25).proof_h = 11 ∧
      (timeline_no_fridge 11 25).fridge_h = 0 ∧ (timeline_no_fridge 11 25).warmup_h = 0 ∧
      (timeline_no_fridge 11 25).bulk_h = 0.55 * 11 ∧
      (timeline_no_fridge 11 25).proof_h = 0.45 * 11) :=
  ⟨by norm_num, timeline_no_fridge_spec 11 25 (by norm_num)⟩

/-- C9: all four fields of a `timeline_no_fridge` result (total > 0) and of a
`timeline_with_fridge` result (fridge, warmup ≥ 0) are nonnegative. -/
theorem timeline_nonneg (t₁ tc₁ t₂ tc₂ f w : ℚ) (ht₁ : 0 < t₁) (hf : 0 ≤ f) (hw : 0 ≤ w) :
    (0 ≤ (timeline_no_fridge t₁ tc₁).bulk_h ∧ 0 ≤ (timeline_no_fridge t₁ tc₁).fridge_h ∧
      0 ≤ (timeline_no_fridge t₁ tc₁).warmup_h ∧ 0 ≤ (timeline_no_fridge t₁ tc₁).proof_h) ∧
    (0 ≤ (timeline_with_fridge t₂ tc₂ f w).bulk_h ∧
      0 ≤ (timeline_with_fridge t₂ tc₂ f w).fridge_h ∧
      0 ≤ (timeline_with_fridge t₂ tc₂ f w).warmup_h ∧
      0 ≤ (timeline_with_fridge t₂ tc₂ f w).proof_h) := by
  constructor
  · unfold timeline_no_fridge
    dsimp only
    split_ifs with h1 h2 <;> refine ⟨?_, le_refl 0, le_refl 0, ?_⟩
    · have hle := min_le_right (min (max ((tc₁ - 25) * 0.05) 0) 1) (t₁ * 0.55 * 0.2)
      nlinarith
    · have h0 : (0 : ℚ) ≤ min (min (max ((tc₁ - 25) * 0.05) 0) 1) (t₁ * 0.55 * 0.2) :=
        le_min (le_min (le_max_right _ _) (by norm_num)) (by nlinarith)
      nlinarith
    · have h0 : (0 : ℚ) ≤ min (min (max ((25 - tc₁) * 0.05) 0) 1) ((t₁ - t₁ * 0.55) * 0.2) :=
        le_min (le_min (le_max_right _ _) (by norm_num)) (by nlinarith)
      nlinarith
    · have hle := min_le_right (min (max ((25 - tc₁) * 0.05) 0) 1) ((t₁ - t₁ * 0.55) * 0.2)
      nlinarith
    · nlinarith
    · nlinarith
  · have hr := temp_adjust_frac_mem tc₂
    have hR : (0 : ℚ) ≤ max (t₂ - f - w) 0 := le_max_right _ _
    unfold timeline_with_fridge
    dsimp only
    refine ⟨mul_nonneg hR (by linarith [hr.1]), le_max_right _ _, le_max_right _ _, ?_⟩
    nlinarith [hr.1, hr.2]

/-- Witness for C9 at (11, 25) and (12, 25, 4, 3). -/
theorem timeline_nonneg_witness :
    ((0 : ℚ) < 11 ∧ (0 : ℚ) ≤ 4 ∧ (0 : ℚ) ≤ 3) ∧
    ((0 ≤ (timeline_no_fridge 11 25).bulk_h ∧ 0 ≤ (timeline_no_fridge 11 25).fridge_h ∧
        0 ≤ (timeline_no_fridge 11 25).warmup_h ∧ 0 ≤ (timeline_no_fridge 11 25).proof_h) ∧
      (0 ≤ (timeline_with_fridge 12 25 4 3).bulk_h ∧
        0 ≤ (timeline_with_fridge 12 25 4 3).fridge_h ∧
        0 ≤ (timeline_with_fridge 12 25 4 3).warmup_h ∧
        0 ≤ (timeline_with_fridge 12 25 4 3).proof_h)) :=
  ⟨⟨by norm_num, by norm_num, by norm_num⟩,
    timeline_nonneg 11 25 12 25 4 3 (by norm_num) (by norm_num) (by norm_num)⟩

/-! ### Claim theorems: yeast estimate and ingredients -/

/-- At 25°C, W = 260 and 12 effective hours the dry estimate is exactly the 0.35% baseline. -/
theorem estimate_25_260_12 : estimate_yeast_percent_dry 25 260 12 = 0.0035 := by
  rw [estimate_at_25_260]
  have h : (0.0035 : ℝ) * (12 / 12) = 0.0035 := by norm_num
  rw [h, clamp_eq_self (by norm_num) (by norm_num)]

/-- At 25°C, W = 260 and 6 effective hours the dry estimate is 0.007 (inside the clamp). -/
theorem estimate_25_260_6 : estimate_yeast_percent_dry 25 260 6 = 0.007 := by
  rw [estimate_at_25_260]
  have h : (0.0035 : ℝ) * (12 / 6) = 0.007 := by norm_num
  rw [h, clamp_eq_self (by norm_num) (by norm_num)]

/-- C4: `estimate_yeast_percent_dry` is the clamped product
`0.0035 · 2^((25−temp)/10) · (w/260)^0.2 · (12/eh)`, and for w ∈ [200, 450] and
eh > 0 the result lies in [0.0005, 0.015]. -/
theorem estimate_yeast_spec (tc : ℝ) (w : ℕ) (e : ℝ) (hw1 : 200 ≤ w) (hw2 : w ≤ 450)
    (he : 0 < e) :
    estimate_yeast_percent_dry tc w e =
      clamp (0.0035 * (2 : ℝ) ^ ((25 - tc) / 10) * ((w : ℝ) / 260) ^ (0.2 : ℝ) * (12 / e))
        0.0005 0.015 ∧
    0.0005 ≤ estimate_yeast_percent_dry tc w e ∧ estimate_yeast_percent_dry tc w e ≤ 0.015 :=
  ⟨rfl, estimate_mem tc w e⟩

/-- Witness for C4 at (25, 260, 12). -/
theorem estimate_yeast_spec_witness :
    ((200 : ℕ) ≤ 260 ∧ (260 : ℕ) ≤ 450 ∧ (0 : ℝ) < 12) ∧
    (0.0005 ≤ estimate_yeast_percent_dry 25 260 12 ∧
      estimate_yeast_percent_dry 25 260 12 ≤ 0.015) :=
  ⟨⟨by norm_num, by norm_num, by norm_num⟩,
    (estimate_yeast_spec 25 260 12 (by norm_num) (by norm_num) (by norm_num)).2⟩

/-- C1 counterexample: at hydration = −1.0035 (with salt 0, Dry yeast, 25°C, W 260, 12 h)
the back-solve divisor is 0, so the four masses sum to 0, not to total_dough_g = 560. -/
theorem compute_ingredients_sum_cex :
    ¬((compute_ingredients ⟨560, -1.0035, 0, YeastKind.Dry, 25, 260, 12⟩).flour_g +
        (compute_ingredients ⟨560, -1.0035, 0, YeastKind.Dry, 25, 260, 12⟩).water_g +
        (compute_ingredients ⟨560, -1.0035, 0, YeastKind.Dry, 25, 260, 12⟩).salt_g +
        (compute_ingredients ⟨560, -1.0035, 0, YeastKind.Dry, 25, 260, 12⟩).yeast_g =
      (560 : ℝ)) := by
  have hy : yeast_pct ⟨560, -1.0035, 0, YeastKind.Dry, 25, 260, 12⟩ = 0.0035 := by
    unfold yeast_pct
    dsimp only
    exact estimate_25_260_12
  unfold compute_ingredients
  dsimp only
  rw [hy]
  norm_num

/-- C1 (amended): for every `IngredientsInput` with hydration ≥ 0 and salt_per_kg ≥ 0,
flour_g + water_g + salt_g + yeast_g equals total_dough_g exactly. -/
theorem compute_ingredients_sum (input : IngredientsInput) (hh : 0 ≤ input.hydration)
    (hs : 0 ≤ input.salt_per_kg) :
    (compute_ingredients input).flour_g + (compute_ingredients input).water_g +
      (compute_ingredients input).salt_g + (compute_ingredients input).yeast_g =
      input.total_dough_g := by
  have hyp := yeast_pct_lb input
  have hsp : (0 : ℝ) ≤ input.salt_per_kg / 1000 := by positivity
  have hd : (0 : ℝ) < 1 + input.hydration + input.salt_per_kg / 1000 + yeast_pct input := by
    linarith
  unfold compute_ingredients
  dsimp only
  have key : input.total_dough_g /
        (1 + input.hydration + input.salt_per_kg / 1000 + yeast_pct input) *
        (1 + input.hydration + input.salt_per_kg / 1000 + yeast_pct input) =
      input.total_dough_g := div_mul_cancel₀ _ (ne_of_gt hd)
  linear_combination key

/-- Witness for C1 (amended) at the crate test input
(560 g, hydration 0.75, salt 20 g/kg, Dry, 25°C, W 270, 11 h). -/
theorem compute_ingredients_sum_witness :
    ((0 : ℝ) ≤ (0.75 : ℝ) ∧ (0 : ℝ) ≤ (20 : ℝ)) ∧
    (compute_ingredients ⟨560, 0.75, 20, YeastKind.Dry, 25, 270, 11⟩).flour_g +
      (compute_ingredients ⟨560, 0.75, 20, YeastKind.Dry, 25, 270, 11⟩).water_g +
      (compute_ingredients ⟨560, 0.75, 20, YeastKind.Dry, 25, 270, 11⟩).salt_g +
      (compute_ingredients ⟨560, 0.75, 20, YeastKind.Dry, 25, 270, 11⟩).yeast_g = 560 :=
  ⟨⟨by norm_num, by norm_num⟩,
    compute_ingredients_sum ⟨560, 0.75, 20, YeastKind.Dry, 25, 270, 11⟩ (by norm_num)
      (by norm_num)⟩

/-- C3 counterexample: at hydration = −1.0105 (salt 0, Fresh yeast, 25°C, W 260, 12 h) the
divisor `1 + hydration + salt_per_kg/1000 + yeast_fraction` of `compute_ingredients`
is exactly 0, refuting "the divisor is never zero for any finite input". -/
theorem divisor_zero_cex :
    1 + (⟨560, -1.0105, 0, YeastKind.Fresh, 25, 260, 12⟩ : IngredientsInput).hydration +
      (⟨560, -1.0105, 0, YeastKind.Fresh, 25, 260, 12⟩ : IngredientsInput).salt_per_kg / 1000 +
      yeast_pct ⟨560, -1.0105, 0, YeastKind.Fresh, 25, 260, 12⟩ = 0 := by
  have hy : yeast_pct ⟨560, -1.0105, 0, YeastKind.Fresh, 25, 260, 12⟩ = 0.0035 * 3 := by
    unfold yeast_pct
    dsimp only
    rw [estimate_25_260_12]
  rw [hy]
  norm_num

/-- C3 (amended): for every input with hydration ≥ 0 and salt_per_kg ≥ 0 the divisor of
`compute_ingredients` is at least 1.0005, hence never zero. -/
theorem divisor_lower_bound (input : IngredientsInput) (hh : 0 ≤ input.hydration)
    (hs : 0 ≤ input.salt_per_kg) :
    1.0005 ≤ 1 + input.hydration + input.salt_per_kg / 1000 + yeast_pct input := by
  have hyp := yeast_pct_lb input
  have hsp : (0 : ℝ) ≤ input.salt_per_kg / 1000 := by positivity
  norm_num
  linarith

/-- Witness for C3 (amended) at (1000 g, hydration 0.6, salt 25 g/kg, Fresh, 20°C, W 300, 8 h). -/
theorem divisor_lower_bound_witness :
    ((0 : ℝ) ≤ (0.6 : ℝ) ∧ (0 : ℝ) ≤ (25 : ℝ)) ∧
    1.0005 ≤ 1 + (⟨1000, 0.6, 25, YeastKind.Fresh, 20, 300, 8⟩ : IngredientsInput).hydration +
      (⟨1000, 0.6, 25, YeastKind.Fresh, 20, 300, 8⟩ : IngredientsInput).salt_per_kg / 1000 +
      yeast_pct ⟨1000, 0.6, 25, YeastKind.Fresh, 20, 300, 8⟩ :=
  ⟨⟨by norm_num, by norm_num⟩,
    divisor_lower_bound ⟨1000, 0.6, 25, YeastKind.Fresh, 20, 300, 8⟩ (by norm_num) (by norm_num)⟩

/-- C7 counterexample: at hydration = −1.0035 (salt 0, 25°C, W 260, 12 h) the Dry divisor is
0 (so the Dry yeast/flour quotient collapses to 0) while the Fresh divisor is 0.007, so the
Fresh working percentage is 0.0105 ≠ 3 × 0. -/
theorem fresh_triple_dry_cex :
    ¬((compute_ingredients ⟨100, -1.0035, 0, YeastKind.Fresh, 25, 260, 12⟩).yeast_g /
        (compute_ingredients ⟨100, -1.0035, 0, YeastKind.Fresh, 25, 260, 12⟩).flour_g =
      3 * ((compute_ingredients ⟨100, -1.0035, 0, YeastKind.Dry, 25, 260, 12⟩).yeast_g /
        (compute_ingredients ⟨100, -1.0035, 0, YeastKind.Dry, 25, 260, 12⟩).flour_g)) := by
  have hyf : yeast_pct ⟨100, -1.0035, 0, YeastKind.Fresh, 25, 260, 12⟩ = 0.0035 * 3 := by
    unfold yeast_pct
    dsimp only
    rw [estimate_25_260_12]
  have hyd : yeast_pct ⟨100, -1.0035, 0, YeastKind.Dry, 25, 260, 12⟩ = 0.0035 := by
    unfold yeast_pct
    dsimp only
    exact estimate_25_260_12
  unfold compute_ingredients
  dsimp only
  rw [hyf, hyd]
  norm_num

/-- C7 (amended): for hydration ≥ 0 and salt_per_kg ≥ 0, two `compute_ingredients` calls that
differ only in the yeast kind give `yeast_g / flour_g` ratios in an exact 3:1 Fresh:Dry
proportion. -/
theorem fresh_triple_dry (total h s tc e : ℝ) (w : ℕ) (hh : 0 ≤ h) (hs : 0 ≤ s) :
    (compute_ingredients ⟨total, h, s, YeastKind.Fresh, tc, w, e⟩).yeast_g /
      (compute_ingredients ⟨total, h, s, YeastKind.Fresh, tc, w, e⟩).flour_g =
    3 * ((compute_ingredients ⟨total, h, s, YeastKind.Dry, tc, w, e⟩).yeast_g /
      (compute_ingredients ⟨total, h, s, YeastKind.Dry, tc, w, e⟩).flour_g) := by
  have hd := (estimate_mem tc w e).1
  have hsp : (0 : ℝ) ≤ s / 1000 := by positivity
  have hyf : yeast_pct ⟨total, h, s, YeastKind.Fresh, tc, w, e⟩ =
      estimate_yeast_percent_dry tc w e * 3 := rfl
  have hyd : yeast_pct ⟨total, h, s, YeastKind.Dry, tc, w, e⟩ =
      estimate_yeast_percent_dry tc w e := rfl
  unfold compute_ingredients
  dsimp only
  rw [hyf, hyd]
  set d := estimate_yeast_percent_dry tc w e with hdd
  by_cases h0 : total = 0
  · rw [h0]
    simp [zero_div]
  · have hden1 : 1 + h + s / 1000 + d * 3 ≠ 0 := by
      have : (0 : ℝ) < 1 + h + s / 1000 + d * 3 := by linarith
      exact ne_of_gt this
    have hden2 : 1 + h + s / 1000 + d ≠ 0 := by
      have : (0 : ℝ) < 1 + h + s / 1000 + d := by linarith
      exact ne_of_gt this
    have hf1 : total / (1 + h + s / 1000 + d * 3) ≠ 0 := div_ne_zero h0 hden1
    have hf2 : total / (1 + h + s / 1000 + d) ≠ 0 := div_ne_zero h0 hden2
    rw [mul_div_cancel_left₀ _ hf1, mul_div_cancel_left₀ _ hf2]
    ring

/-- Witness for C7 (amended) at (560 g, hydration 0.75, salt 20 g/kg, 25°C, W 270, 11 h). -/
theorem fresh_triple_dry_witness :
    ((0 : ℝ) ≤ (0.75 : ℝ) ∧ (0 : ℝ) ≤ (20 : ℝ)) ∧
    (compute_ingredients ⟨560, 0.75, 20, YeastKind.Fresh, 25, 270, 11⟩).yeast_g /
      (compute_ingredients ⟨560, 0.75, 20, YeastKind.Fresh, 25, 270, 11⟩).flour_g =
    3 * ((compute_ingredients ⟨560, 0.75, 20, YeastKind.Dry, 25, 270, 11⟩).yeast_g /
      (compute_ingredients ⟨560, 0.75, 20, YeastKind.Dry, 25, 270, 11⟩).flour_g) :=
  ⟨⟨by norm_num, by norm_num⟩,
    fresh_triple_dry 560 0.75 20 25 11 270 (by norm_num) (by norm_num)⟩

/-- C10: the [0.0005, 0.015] clamp in `compute_ingredients` is applied to the dry estimate
before the Fresh 3× multiplier: the Fresh working fraction is `(clamped estimate) * 3`,
lies in [0.0015, 0.045], and exceeds 0.015 at (25°C, W 260, 6 h), while the Dry fraction
is always ≤ 0.015. -/
theorem fresh_clamp_before_multiplier (total h s tc e : ℝ) (w : ℕ) :
    yeast_pct ⟨total, h, s, YeastKind.Fresh, tc, w, e⟩ =
      estimate_yeast_percent_dry tc w e * 3 ∧
    0.0015 ≤ yeast_pct ⟨total, h, s, YeastKind.Fresh, tc, w, e⟩ ∧
    yeast_pct ⟨total, h, s, YeastKind.Fresh, tc, w, e⟩ ≤ 0.045 ∧
    yeast_pct ⟨total, h, s, YeastKind.Dry, tc, w, e⟩ ≤ 0.015 ∧
    0.015 < yeast_pct ⟨total, h, s, YeastKind.Fresh, 25, 260, 6⟩ := by
  have hm := estimate_mem tc w e
  have hyf : yeast_pct ⟨total, h, s, YeastKind.Fresh, tc, w, e⟩ =
      estimate_yeast_percent_dry tc w e * 3 := rfl
  have hyd : yeast_pct ⟨total, h, s, YeastKind.Dry, tc, w, e⟩ =
      estimate_yeast_percent_dry tc w e := rfl
  have hy6 : yeast_pct ⟨total, h, s, YeastKind.Fresh, 25, 260, 6⟩ =
      estimate_yeast_percent_dry 25 260 6 * 3 := rfl
  refine ⟨hyf, ?_, ?_, ?_, ?_⟩
  · rw [hyf]; nlinarith [hm.1]
  · rw [hyf]; nlinarith [hm.2]
  · rw [hyd]; exact hm.2
  · rw [hy6, estimate_25_260_6]; norm_num

end PizzaCore
